import Mathlib

/-!
Verification of the ResumeMatch skill-matching and fit-scoring engine.

This file shallowly embeds the deterministic core of the repository:

* `backend/utils/skill_matcher.py` (`SkillOntology`, `SkillMatcher`),
* `backend/agents/gap_analysis.py` (`GapAnalysisAgent`),
* `backend/agents/ats_scorer.py` (`ATSScorerAgent`),

and proves or refutes the frozen claims about it.

Modelling conventions:

* Python strings are modelled as `List Nat` of character code points
  (`Str`); `S` converts a Lean string literal.  All the skill tables in
  the source are ASCII, so `lower`/word-character tests are modelled on
  the ASCII range.
* Python `dict` literals and incremental index builds are modelled as
  association lists in insertion order; `lookupLast` returns the most
  recently inserted binding, matching dict overwrite semantics.
* Python floats are idealised as exact rationals (`ℚ`); `int(x)` on the
  non-negative quantities appearing here is `Int.floor`; `round(x, n)`
  is round-half-to-even at `n` decimals.
* the regex search used for free-text matching (a pattern built from
  a word-boundary assertion, the escaped target and a closing
  word-boundary assertion, with IGNORECASE) is modelled by
  `skillInText`: an occurrence of the literal `t` in `s` such that both
  ends sit on a regex word boundary (the word-character status of the
  two adjacent positions differs, positions outside the string being
  non-word).
-/

namespace ResumeMatch

/-- Python strings modelled as lists of character code points. -/
abbrev Str := List Nat

/-- Convert a Lean string literal to its list of code points. -/
def S (s : String) : Str := s.data.map Char.toNat

/-- ASCII lower-casing of one code point, modelling `str.lower()`. -/
def lowerCode (c : Nat) : Nat := if 65 ≤ c ∧ c ≤ 90 then c + 32 else c

/-- Model of Python `str.lower()`. -/
def pyLower (s : Str) : Str := s.map lowerCode

/-- Whitespace test used by `str.strip()` and `str.split()` (ASCII range). -/
def isSpaceCode (c : Nat) : Bool := c == 32 || (9 ≤ c && c ≤ 13)

/-- Model of Python `str.strip()`: drop whitespace from both ends. -/
def pyStrip (s : Str) : Str :=
  ((s.dropWhile isSpaceCode).reverse.dropWhile isSpaceCode).reverse

/-- Model of the ubiquitous `skill.lower().strip()` normalisation step. -/
def pyClean (s : Str) : Str := pyStrip (pyLower s)

/-- Last-inserted binding for a key in an association list built in
insertion order; models Python dict lookup under overwriting inserts. -/
def lookupLast (m : List (Str × α)) (k : Str) : Option α :=
  m.foldl (fun acc p => if p.1 == k then some p.2 else acc) none

/-- Model of `key in dict` / membership in a Python dict. -/
def dictMem (m : List (Str × α)) (k : Str) : Bool := m.any (·.1 == k)

/-- Model of `dict.get(k, d)`. -/
def dictGet (m : List (Str × α)) (k : Str) (d : α) : α := (lookupLast m k).getD d

/-- Word-character test of the regex `\b` semantics (`[A-Za-z0-9_]`). -/
def isWordCode (c : Nat) : Bool :=
  (48 ≤ c && c ≤ 57) || (65 ≤ c && c ≤ 90) || (97 ≤ c && c ≤ 122) || c == 95

/-- Does the literal `t` occur in `s` starting at position `i`? -/
def occursAt (t s : Str) (i : Nat) : Bool := (s.drop i).take t.length == t

/-- Is the character at position `i` of `s` a word character?  Positions
outside the string count as non-word. -/
def wordCharAt (s : Str) (i : Nat) : Bool :=
  match s.get? i with
  | some c => isWordCode c
  | none => false

/-- Regex `\b` at the gap before position `i`: word-character status
differs between positions `i - 1` and `i`. -/
def boundaryAt (s : Str) (i : Nat) : Bool :=
  (if i = 0 then false else wordCharAt s (i - 1)) != wordCharAt s i

/-- The literal `t` occurs at `i` in `s` with `\b` holding at both ends. -/
def wholeWordAt (t s : Str) (i : Nat) : Bool :=
  occursAt t s i && boundaryAt s i && boundaryAt s (i + t.length)

/-- Semantics of the word-boundary regex search for the escaped
literal `t` in `s`: some whole-word occurrence of `t` in `s`. -/
def skillInText (t s : Str) : Bool :=
  (List.range (s.length + 1)).any (wholeWordAt t s)

/-- Naive substring test, the semantics of Python `t in s` on strings. -/
def containsSubstr (t s : Str) : Bool :=
  (List.range (s.length + 1)).any (occursAt t s)

/-- Model of `GapAnalysisAgent._skill_in_text` (gap_analysis.py 382-386):
word-boundary regex search with `re.IGNORECASE`, modelled by
case-folding both pattern and text. -/
def skillInTextCI (t s : Str) : Bool := skillInText (pyLower t) (pyLower s)

/-- Python truthiness of an optional string field (`None` and `""` falsy). -/
def truthyOpt (o : Option Str) : Bool :=
  match o with
  | some s => !s.isEmpty
  | none => false

/-- Split on every whitespace character, keeping empty fields. -/
def splitAll (s : Str) : List Str :=
  s.foldr
    (fun c acc =>
      if isSpaceCode c then [] :: acc
      else
        match acc with
        | [] => [[c]]
        | t :: ts => (c :: t) :: ts)
    [[]]

/-- Python `str.split()` on a code-point list: split on whitespace runs,
discarding empty fields. -/
def splitWs (s : Str) : List Str := (splitAll s).filter (fun t => !t.isEmpty)

/-- Skill importance levels (`SkillImportance` in gap_analysis.py). -/
inductive SkillImportance where
  | critical
  | high
  | medium
  | low
deriving DecidableEq

/-- The `EQUIVALENCES` table of `GapAnalysisAgent` (gap_analysis.py
118-177), in source order. -/
def EQUIVALENCES : List (Str × List Str) :=
  [ (S "sql",
      [S "postgresql", S "postgres", S "psql", S "pg",
       S "mysql", S "mariadb",
       S "sqlite",
       S "sql server", S "mssql", S "tsql",
       S "oracle",
       S "pl/sql", S "plsql"]),
    (S "postgresql", [S "postgres", S "psql", S "pg"]),
    (S "postgres", [S "postgresql", S "psql", S "pg"]),
    (S "psql", [S "postgresql", S "postgres", S "pg"]),
    (S "pg", [S "postgresql", S "postgres", S "psql"]),
    (S "mysql", [S "mariadb", S "my-sql"]),
    (S "mariadb", [S "mysql"]),
    (S "sqlite", [S "sqlite3", S "sqlite 3"]),
    (S "javascript", [S "js", S "ecmascript"]),
    (S "typescript", [S "ts"]),
    (S "nodejs", [S "node", S "node.js"]),
    (S "fastapi", [S "fast api", S "fast-api"]),
    (S "rest api", [S "rest", S "restful", S "restful api", S "restful apis"]),
    (S "microservices", [S "microservice", S "microservice architecture"]),
    (S "kubernetes", [S "k8s"]),
    (S "cicd", [S "ci/cd", S "ci cd", S "continuous integration"]),
    (S "nosql", [S "no-sql", S "non-relational"]),
    (S "git", [S "github", S "gitlab", S "version control", S "git flow"]),
    (S "aws", [S "amazon web services", S "amazon aws"]),
    (S "azure", [S "microsoft azure", S "azure"]),
    (S "gcp", [S "google cloud", S "google cloud platform"]),
    (S "orm", [S "sqlalchemy", S "prisma", S "sequelize", S "typeorm",
       S "eloquent", S "jpa"]),
    (S "odm", [S "mongoose"]) ]

/-- The reverse index built by
`GapAnalysisAgent._build_equivalence_index` (gap_analysis.py 184-190):
for each entry, the canonical maps to itself and every equivalent maps
to the canonical; later insertions overwrite earlier ones. -/
def equivToCanonical : List (Str × Str) :=
  EQUIVALENCES.foldl
    (fun acc p =>
      acc ++ (pyLower p.1, pyLower p.1) :: p.2.map (fun e => (pyLower e, pyLower p.1)))
    []

/-- Model of `GapAnalysisAgent._normalize_skill` (gap_analysis.py
192-195): lower-case, strip, then resolve through the equivalence
index, defaulting to the cleaned form. -/
def normalizeSkill (s : Str) : Str :=
  let c := pyClean s
  dictGet equivToCanonical c c

/-- The `SKILL_IMPORTANCE` table of `GapAnalysisAgent` (gap_analysis.py
56-114). -/
def SKILL_IMPORTANCE : List (Str × SkillImportance) :=
  [ (S "python", .critical), (S "javascript", .critical),
    (S "typescript", .critical), (S "java", .critical), (S "go", .critical),
    (S "rust", .high), (S "c++", .high),
    (S "fastapi", .high), (S "django", .high), (S "flask", .high),
    (S "react", .high), (S "nodejs", .high), (S "express", .medium),
    (S "spring", .high),
    (S "postgresql", .high), (S "mysql", .high), (S "mariadb", .high),
    (S "mongodb", .high), (S "redis", .medium), (S "sql", .high),
    (S "nosql", .medium), (S "sqlite", .medium),
    (S "rest", .high), (S "rest api", .high), (S "restful", .high),
    (S "microservices", .medium), (S "graphql", .medium), (S "grpc", .medium),
    (S "docker", .medium), (S "kubernetes", .medium), (S "aws", .medium),
    (S "azure", .medium), (S "gcp", .medium), (S "git", .high),
    (S "cicd", .medium),
    (S "orm", .medium), (S "odm", .medium), (S "testing", .medium),
    (S "debugging", .medium), (S "agile", .low),
    (S "communication", .low), (S "teamwork", .low),
    (S "problem solving", .low), (S "leadership", .low) ]

/-- Model of `GapAnalysisAgent._get_skill_importance` (gap_analysis.py
197-200): look up the normalised skill, defaulting to `medium`. -/
def getSkillImportance (s : Str) : SkillImportance :=
  dictGet SKILL_IMPORTANCE (normalizeSkill s) .medium

/-- One entry of the `SkillOntology.ONTOLOGY` table (skill_matcher.py
31-209): canonical name, category, aliases, related skills. -/
structure OntologyEntry where
  name : Str
  category : Str
  aliases : List Str
  related : List Str

/-- The `SkillOntology.ONTOLOGY` table (skill_matcher.py 31-209). -/
def ONTOLOGY : List OntologyEntry :=
  [ ⟨S "python", S "language", [S "python3", S "py", S "python programming"],
      [S "django", S "fastapi", S "flask", S "pandas", S "numpy"]⟩,
    ⟨S "javascript", S "language", [S "js", S "ecmascript", S "es6"],
      [S "nodejs", S "react", S "vue", S "typescript"]⟩,
    ⟨S "typescript", S "language", [S "ts"],
      [S "javascript", S "angular", S "react"]⟩,
    ⟨S "fastapi", S "framework", [S "fast api", S "fast-api"],
      [S "python", S "rest", S "api"]⟩,
    ⟨S "django", S "framework", [S "django framework"],
      [S "python", S "orm", S "web"]⟩,
    ⟨S "react", S "framework", [S "reactjs", S "react.js"],
      [S "javascript", S "frontend", S "jsx"]⟩,
    ⟨S "nodejs", S "runtime", [S "node", S "node.js"],
      [S "javascript", S "express", S "npm"]⟩,
    ⟨S "mongodb", S "database", [S "mongo"],
      [S "nosql", S "mongoose", S "odm"]⟩,
    ⟨S "postgresql", S "database", [S "postgres", S "psql", S "pg"],
      [S "sql", S "relational", S "orm"]⟩,
    ⟨S "mysql", S "database", [S "my sql"],
      [S "sql", S "relational"]⟩,
    ⟨S "redis", S "database", [S "redis cache"],
      [S "caching", S "nosql", S "in-memory"]⟩,
    ⟨S "nosql", S "database_type",
      [S "no-sql", S "non-relational", S "nosql databases"],
      [S "mongodb", S "redis", S "cassandra", S "dynamodb"]⟩,
    ⟨S "sql", S "language", [S "structured query language"],
      [S "postgresql", S "mysql", S "database", S "rdbms"]⟩,
    ⟨S "microservices", S "architecture",
      [S "microservice", S "micro-services", S "microservice architecture"],
      [S "distributed", S "docker", S "kubernetes", S "api"]⟩,
    ⟨S "rest", S "architecture",
      [S "restful", S "rest api", S "restful api", S "restful apis",
       S "restful architectural style"],
      [S "api", S "http", S "web services"]⟩,
    ⟨S "graphql", S "architecture", [S "graph ql"],
      [S "api", S "query language"]⟩,
    ⟨S "grpc", S "architecture", [S "g-rpc", S "grpc api"],
      [S "protobuf", S "rpc", S "microservices"]⟩,
    ⟨S "protobuf", S "serialization",
      [S "protocol buffers", S "proto", S "protobuf with python"],
      [S "grpc", S "serialization"]⟩,
    ⟨S "docker", S "devops", [S "containerization", S "docker containers"],
      [S "kubernetes", S "containers", S "devops"]⟩,
    ⟨S "kubernetes", S "devops", [S "k8s", S "kube"],
      [S "docker", S "orchestration", S "devops"]⟩,
    ⟨S "aws", S "cloud", [S "amazon web services", S "amazon aws"],
      [S "cloud", S "ec2", S "s3", S "lambda"]⟩,
    ⟨S "azure", S "cloud", [S "microsoft azure", S "azure cloud"],
      [S "cloud", S "microsoft"]⟩,
    ⟨S "gcp", S "cloud", [S "google cloud", S "google cloud platform"],
      [S "cloud", S "google"]⟩,
    ⟨S "git", S "vcs", [S "git version control", S "version control"],
      [S "github", S "gitlab", S "bitbucket"]⟩,
    ⟨S "cicd", S "devops",
      [S "ci/cd", S "ci cd", S "continuous integration",
       S "continuous deployment"],
      [S "jenkins", S "github actions", S "devops"]⟩,
    ⟨S "orm", S "pattern", [S "object relational mapping", S "orms"],
      [S "sqlalchemy", S "prisma", S "sequelize", S "database"]⟩,
    ⟨S "odm", S "pattern", [S "object document mapping", S "odms"],
      [S "mongoose", S "mongodb"]⟩,
    ⟨S "testing", S "practice", [S "unit testing", S "test", S "automated testing"],
      [S "pytest", S "jest", S "tdd"]⟩,
    ⟨S "debugging", S "practice", [S "debug", S "troubleshooting"],
      [S "testing", S "logging"]⟩,
    ⟨S "agile", S "methodology", [S "agile methodology", S "agile methodologies"],
      [S "scrum", S "kanban", S "sprint"]⟩,
    ⟨S "problem_solving", S "soft_skill",
      [S "problem solving", S "problem-solving", S "analytical thinking"],
      [S "critical thinking", S "debugging"]⟩,
    ⟨S "communication", S "soft_skill",
      [S "team communication", S "collaboration"],
      [S "teamwork", S "presentation"]⟩ ]

/-- The reverse index built by `SkillOntology._build_reverse_index`
(skill_matcher.py 214-222): each canonical name and each alias maps to
the canonical name. -/
def aliasToSkill : List (Str × Str) :=
  ONTOLOGY.foldl
    (fun acc e =>
      acc ++ (pyLower e.name, e.name) :: e.aliases.map (fun a => (pyLower a, e.name)))
    []

/-- Model of `SkillOntology.normalize` (skill_matcher.py 224-227):
lower-case, strip, then resolve through the alias index, defaulting to
the cleaned form. -/
def ontologyNormalize (s : Str) : Str :=
  let c := pyClean s
  dictGet aliasToSkill c c

/-- Model of `SkillOntology.get_related` (skill_matcher.py 229-234). -/
def ontologyRelated (s : Str) : List Str :=
  let n := ontologyNormalize s
  match ONTOLOGY.find? (fun e => e.name == n) with
  | some e => e.related
  | none => []

/-- Model of `SkillOntology.are_equivalent` (skill_matcher.py 236-238). -/
def areEquivalent (a b : Str) : Bool := ontologyNormalize a == ontologyNormalize b

/-- The `CRITICAL_SKILLS_BY_ROLE` table of `ATSScorerAgent`
(ats_scorer.py 40-48). -/
def CRITICAL_SKILLS_BY_ROLE : List (Str × List Str) :=
  [ (S "python", [S "python", S "django", S "fastapi", S "flask"]),
    (S "backend", [S "python", S "java", S "go", S "nodejs", S "fastapi",
       S "django", S "spring"]),
    (S "frontend", [S "javascript", S "react", S "vue", S "angular",
       S "typescript"]),
    (S "fullstack", [S "javascript", S "python", S "react", S "nodejs"]),
    (S "data", [S "python", S "sql", S "pandas", S "spark"]),
    (S "devops", [S "docker", S "kubernetes", S "aws", S "terraform"]),
    (S "cloud", [S "aws", S "azure", S "gcp", S "docker"]) ]

/-- Seniority levels (`Seniority` in models/schemas.py). -/
inductive Seniority where
  | entry
  | junior
  | mid
  | senior
  | lead
  | principal
deriving DecidableEq

/-- Work experience entry (`Experience` in models/schemas.py). -/
structure Experience where
  title : Str
  company : Str
  duration : Str
  description : List Str
  skillsUsed : List Str
deriving DecidableEq

/-- Education entry (`Education` in models/schemas.py). -/
structure EducationEntry where
  degree : Str
  institution : Str
  year : Option Str
  gpa : Option Str
  fieldOfStudy : Option Str
deriving DecidableEq

/-- Project entry (`Project` in models/schemas.py). -/
structure Project where
  name : Str
  description : Str
  technologies : List Str
  link : Option Str
  impact : Option Str
deriving DecidableEq

/-- Parsed resume (`ParsedResume` in models/schemas.py). -/
structure ParsedResume where
  name : Option Str
  email : Option Str
  phone : Option Str
  location : Option Str
  linkedin : Option Str
  github : Option Str
  summary : Option Str
  skills : List Str
  experience : List Experience
  education : List EducationEntry
  projects : List Project
  certifications : List Str
  languages : List Str
  rawText : Str
deriving DecidableEq

/-- Parsed job description (`ParsedJobDescription` in models/schemas.py). -/
structure ParsedJobDescription where
  role : Str
  company : Option Str
  requiredSkills : List Str
  preferredSkills : List Str
  tools : List Str
  seniority : Seniority
  softSkills : List Str
  keywords : List Str
  responsibilities : List Str
  qualifications : List Str
  experienceYears : Option Str
deriving DecidableEq

/-- Missing-skill record (`SkillGap` in models/schemas.py); `importance`
is the free-form string field holding `"required"` or `"preferred"`. -/
structure SkillGap where
  skill : Str
  importance : Str
  category : Str
deriving DecidableEq

/-- Gap-analysis result (`GapAnalysis` in models/schemas.py).  The
narrative `strengths`/`weaknesses` display strings are generated
English text and are not modelled; no claim concerns them. -/
structure GapAnalysis where
  matchingSkills : List Str
  missingSkills : List SkillGap
  matchingTools : List Str
  missingTools : List Str
  matchingKeywords : List Str
  missingKeywords : List Str
  experienceMatch : Bool
  seniorityMatch : Bool
  overallMatchPercentage : ℚ
deriving DecidableEq

/-- Match strategies of `GapAnalysisAgent._match_skill`, the
`match_strategy` string field of `SkillMatchResult` in
gap_analysis.py. -/
inductive Strategy where
  | exactMatch
  | equivalenceMatch
  | sqlFamilyMatch
  | textAppearance
  | partToken
  | noMatch
deriving DecidableEq

/-- Detailed skill match result (`SkillMatchResult` in gap_analysis.py
31-40).  `matchedWith` holds the matched resume skill, or for text and
family matches the equivalent that was found (Python wraps the latter
in a descriptive bracket marker).  `confidence` is in hundredths: the
source values 1.0 / 0.95 / 0.90 / 0.80 / 0.65 / 0.0 are the exact
decimals 100 / 95 / 90 / 80 / 65 / 0 here, since rationals with
denominator 100 are represented by their numerators throughout. -/
structure SkillMatchResult where
  skill : Str
  matched : Bool
  matchedWith : Option Str
  confidence : Nat
  matchStrategy : Strategy
  importance : SkillImportance
deriving DecidableEq

/-- Model of `GapAnalysisAgent._get_full_resume_text` (gap_analysis.py
202-217): raw text, experience fields, project fields and
certifications joined with single spaces, empty parts dropped. -/
def getFullResumeText (r : ParsedResume) : Str :=
  let parts : List Str :=
    [r.rawText] ++
    (r.experience.foldl
      (fun acc e => acc ++ [e.title, e.company] ++ e.description ++ e.skillsUsed) []) ++
    (r.projects.foldl
      (fun acc p => acc ++ [p.name, p.description] ++ p.technologies) []) ++
    r.certifications
  List.intercalate (S " ") (parts.filter (fun p => !p.isEmpty))

/-- The hard-coded `sql_variants` list inside
`GapAnalysisAgent._match_skill` (gap_analysis.py 295-300). -/
def sqlVariants : List Str :=
  [S "postgresql", S "postgres", S "psql", S "pg",
   S "mysql", S "mariadb",
   S "sqlite", S "sqlite3",
   S "sql server", S "mssql", S "oracle"]

/-- Model of `GapAnalysisAgent._match_skill` (gap_analysis.py 219-380):
the 5-strategy matcher (exact, equivalence, SQL family, free text,
partial token).  The `importance_type` parameter of the Python function
is unused there and omitted here. -/
def matchSkill (jdSkill : Str) (resumeSkills : List Str) (resumeText : Str) :
    SkillMatchResult :=
  let jdLower := pyClean jdSkill
  let jdNorm := normalizeSkill jdSkill
  let skillsLower : List (Str × Str) := resumeSkills.map (fun s => (pyLower s, s))
  let skillsNorm : List (Str × Str) := resumeSkills.map (fun s => (normalizeSkill s, s))
  let textLower := pyLower resumeText
  let imp := getSkillImportance jdSkill
  if dictMem skillsLower jdLower then
    ⟨jdSkill, true, lookupLast skillsLower jdLower, 100, .exactMatch, imp⟩
  else if dictMem skillsNorm jdNorm then
    ⟨jdSkill, true, lookupLast skillsNorm jdNorm, 95, .equivalenceMatch, imp⟩
  else
    let equivHit := (dictGet EQUIVALENCES jdNorm []).findSome? (fun equiv =>
      let el := pyLower equiv
      if dictMem skillsLower el then
        some (⟨jdSkill, true, lookupLast skillsLower el, 95,
          .equivalenceMatch, imp⟩ : SkillMatchResult)
      else if skillInTextCI equiv textLower then
        some ⟨jdSkill, true, some equiv, 90, .equivalenceMatch, imp⟩
      else none)
    match equivHit with
    | some res => res
    | none =>
      let sqlHit :=
        if jdNorm == S "sql" then
          sqlVariants.findSome? (fun v =>
            if dictMem skillsLower v then
              some (⟨jdSkill, true, lookupLast skillsLower v, 95,
                .sqlFamilyMatch, imp⟩ : SkillMatchResult)
            else if dictMem skillsNorm (normalizeSkill v) then
              some ⟨jdSkill, true, lookupLast skillsNorm (normalizeSkill v),
                95, .sqlFamilyMatch, imp⟩
            else if skillInTextCI v textLower then
              some ⟨jdSkill, true, some v, 90, .sqlFamilyMatch, imp⟩
            else none)
        else none
      match sqlHit with
      | some res => res
      | none =>
        if skillInTextCI jdLower textLower then
          ⟨jdSkill, true, none, 80, .textAppearance, imp⟩
        else
          let skillParts :=
            splitWs (jdLower.map (fun c => if c == 45 || c == 47 then 32 else c))
          let mainParts := skillParts.filter (fun p =>
            4 ≤ p.length &&
            !([S "with", S "and", S "the", S "for"].contains p))
          let partHit := mainParts.findSome? (fun part =>
            if dictMem skillsLower part then
              some (⟨jdSkill, true, lookupLast skillsLower part, 65,
                .partToken, imp⟩ : SkillMatchResult)
            else if skillInTextCI part textLower then
              some ⟨jdSkill, true, some part, 65, .partToken, imp⟩
            else none)
          match partHit with
          | some res => res
          | none => ⟨jdSkill, false, none, 0, .noMatch, imp⟩

/-- Importance weights used by
`GapAnalysisAgent._calculate_weighted_match` (gap_analysis.py 538-543),
in hundredths: the source values 1.0 / 0.8 / 0.5 / 0.2 are 100 / 80 /
50 / 20 here. -/
def importanceWeight : SkillImportance → Nat
  | .critical => 100
  | .high => 80
  | .medium => 50
  | .low => 20

/-- One step of the required-skill accumulation loop of
`_calculate_weighted_match`: adds the weight (hundredths) to the total
and, when matched, weight times confidence (both hundredths, so the
product is in ten-thousandths) to the matched total. -/
def reqStep (acc : Nat × Nat) (m : SkillMatchResult) : Nat × Nat :=
  (acc.1 + importanceWeight m.importance,
   acc.2 + if m.matched then importanceWeight m.importance * m.confidence else 0)

/-- One step of the preferred-skill accumulation loop of
`_calculate_weighted_match`: same as `reqStep` with the weight scaled
by 0.3 (all the scaled weights 30 / 24 / 15 / 6 are exact in
hundredths). -/
def prefStep (acc : Nat × Nat) (m : SkillMatchResult) : Nat × Nat :=
  (acc.1 + importanceWeight m.importance * 3 / 10,
   acc.2 + if m.matched then importanceWeight m.importance * 3 / 10 * m.confidence else 0)

/-- Model of `GapAnalysisAgent._calculate_weighted_match`
(gap_analysis.py 532-563): fold both loops, then return the neutral
default 70.0 when the total weight is zero, else the matched-to-total
percentage `(matched_weight / total_weight) * 100`.  In the scaled
units the matched total is in ten-thousandths and the weight total in
hundredths, so the percentage is exactly their quotient:
`(m / 10^4) / (t / 10^2) * 100 = m / t`. -/
def calculateWeightedMatch (req pref : List SkillMatchResult) : ℚ :=
  let acc := pref.foldl prefStep (req.foldl reqStep (0, 0))
  if acc.1 = 0 then 70 else (acc.2 : ℚ) / (acc.1 : ℚ)

/-- Round-half-to-even to an integer, the behaviour of Python `round`. -/
def roundHalfEven (q : ℚ) : ℤ :=
  if q - ⌊q⌋ < 1/2 then ⌊q⌋
  else if 1/2 < q - ⌊q⌋ then ⌊q⌋ + 1
  else if Even ⌊q⌋ then ⌊q⌋ else ⌊q⌋ + 1

/-- Python `round(x, 1)` idealised on rationals. -/
def roundTo1 (q : ℚ) : ℚ := (roundHalfEven (q * 10) : ℚ) / 10

/-- Python `round(x, 3)` idealised on rationals. -/
def roundTo3 (q : ℚ) : ℚ := (roundHalfEven (q * 1000) : ℚ) / 1000

/-- Model of `GapAnalysisAgent._check_seniority` (gap_analysis.py
565-577). -/
def checkSeniority (r : ParsedResume) (jd : ParsedJobDescription) : Bool :=
  let required : Nat :=
    match jd.seniority with
    | .entry => 0
    | .junior => 1
    | .mid => 2
    | .senior => 4
    | .lead => 5
    | .principal => 7
  required - 1 ≤ r.experience.length

/-- The `.value` string of a `SkillImportance`, used for the gap
`category` field in `analyze`. -/
def importanceValue : SkillImportance → Str
  | .critical => S "critical"
  | .high => S "high"
  | .medium => S "medium"
  | .low => S "low"

/-- Model of `GapAnalysisAgent.analyze` (gap_analysis.py 388-471)
restricted to the modelled `GapAnalysis` fields: run the 5-strategy
matcher over the required, preferred, tool and keyword lists, partition
into matched and missing, and compute the rounded weighted match
percentage. -/
def analyze (r : ParsedResume) (jd : ParsedJobDescription) : GapAnalysis :=
  let resumeText := getFullResumeText r
  let requiredMatches := jd.requiredSkills.map
    (fun s => matchSkill s r.skills resumeText)
  let preferredMatches := jd.preferredSkills.map
    (fun s => matchSkill s r.skills resumeText)
  let toolsMatches := jd.tools.map (fun s => matchSkill s r.skills resumeText)
  let keywordsMatches := jd.keywords.map (fun s => matchSkill s r.skills resumeText)
  let matchingRequired := (requiredMatches.filter (·.matched)).map (·.skill)
  let matchingSkills := matchingRequired ++
    ((preferredMatches.filter (·.matched)).map (·.skill)).filter
      (fun s => !matchingRequired.contains s)
  let missingSkillGaps :=
    (requiredMatches.filter (fun m => !m.matched)).map
      (fun m => (⟨m.skill, S "required", importanceValue m.importance⟩ : SkillGap)) ++
    (preferredMatches.filter (fun m => !m.matched)).map
      (fun m => (⟨m.skill, S "preferred", importanceValue m.importance⟩ : SkillGap))
  { matchingSkills := matchingSkills
    missingSkills := missingSkillGaps
    matchingTools := (toolsMatches.filter (·.matched)).map (·.skill)
    missingTools := (toolsMatches.filter (fun m => !m.matched)).map (·.skill)
    matchingKeywords := (keywordsMatches.filter (·.matched)).map (·.skill)
    missingKeywords := (keywordsMatches.filter (fun m => !m.matched)).map (·.skill)
    experienceMatch := !r.experience.isEmpty
    seniorityMatch := checkSeniority r jd
    overallMatchPercentage :=
      roundTo1 (calculateWeightedMatch requiredMatches preferredMatches) }

/-- Model of `SkillMatcher.match_skill` (skill_matcher.py 284-356) in
the embeddings-free configuration (`use_embeddings=False`, or
sentence-transformers unavailable — skill_matcher.py 15-21), so the
semantic-similarity tier 5 is skipped; the remaining tiers are exact
match, ontology match, alias equivalence, raw text containment
(Python `in`, a plain substring test), and related skills.  Returns
`(is_match, confidence, matched_with)` with confidence in hundredths
(1.0 / 0.95 / 0.85 / 0.7 / 0.0 become 100 / 95 / 85 / 70 / 0). -/
def matcherMatchSkill (jdSkill : Str) (resumeSkills : List Str) (resumeText : Str) :
    Bool × Nat × Option Str :=
  let jdLower := pyClean jdSkill
  let jdNorm := ontologyNormalize jdSkill
  let rsLower := resumeSkills.map pyClean
  let rsNorm := resumeSkills.map ontologyNormalize
  if rsLower.contains jdLower then
    (true, 100, (resumeSkills.zip rsLower).findSome?
      (fun p => if p.2 == jdLower then some p.1 else none))
  else if rsNorm.contains jdNorm then
    (true, 95, (resumeSkills.zip rsNorm).findSome?
      (fun p => if p.2 == jdNorm then some p.1 else none))
  else
    match resumeSkills.find? (fun rs => areEquivalent jdSkill rs) with
    | some rs => (true, 95, some rs)
    | none =>
      let textLower := pyLower resumeText
      if !resumeText.isEmpty && containsSubstr jdNorm textLower then
        (true, 85, some jdNorm)
      else if !resumeText.isEmpty && containsSubstr jdLower textLower then
        (true, 85, some jdLower)
      else
        match (ontologyRelated jdNorm).find? (fun rel => rsNorm.contains rel) with
        | some rel =>
          (true, 70, (resumeSkills.zip rsNorm).findSome?
            (fun p => if p.2 == rel then some p.1 else none))
        | none => (false, 0, none)

/-- Issue severity tiers used by `ATSScorerAgent` (the `severity`
string field of `ATSIssue` in models/schemas.py; every issue the agent
produces carries one of these four values). -/
inductive Severity where
  | critical
  | high
  | medium
  | low
deriving DecidableEq

/-- ATS issue (`ATSIssue` in models/schemas.py) restricted to the
fields the scoring logic reads: the category tag and the severity.
The narrative `issue`/`suggestion` display strings are not modelled. -/
structure ATSIssue where
  category : Str
  severity : Severity
deriving DecidableEq

/-- Score buckets (`ATSBucket` in models/schemas.py). -/
inductive ATSBucket where
  | strong
  | moderate
  | weak
  | notAtsFriendly
deriving DecidableEq

/-- ATS scoring result (`ATSScore` in models/schemas.py) restricted to
the modelled fields; the narrative `recommendations` list is generated
display text and is not modelled. -/
structure ATSScore where
  overallScore : Int
  bucket : ATSBucket
  skillMatchScore : Int
  keywordScore : Int
  formattingScore : Int
  experienceAlignmentScore : Int
  issues : List ATSIssue
  missingKeywords : List Str
deriving DecidableEq

/-- The `SEVERITY_PENALTIES` table of `ATSScorerAgent` (ats_scorer.py
51-56), exactly as coded: `critical` maps `count` to
`min(-8 * count, -20)`, and so on. -/
def severityPenalty : Severity → Int → Int
  | .critical, c => min (-8 * c) (-20)
  | .high, c => min (-4 * c) (-12)
  | .medium, c => min (-2 * c) (-6)
  | .low, c => min (-1 * c) (-3)

/-- Number of issues of a given severity in a list. -/
def countSeverity (issues : List ATSIssue) (s : Severity) : Nat :=
  (issues.filter (fun i => decide (i.severity = s))).length

/-- Model of `ATSScorerAgent._calculate_issue_penalty` (ats_scorer.py
131-149): group the issues by severity and add the tier penalty for
every tier with at least one issue. -/
def calculateIssuePenalty (issues : List ATSIssue) : Int :=
  [Severity.critical, Severity.high, Severity.medium, Severity.low].foldl
    (fun acc s =>
      let c := countSeverity issues s
      if 0 < c then acc + severityPenalty s (c : Int) else acc)
    0

/-- Model of `ATSScorerAgent._get_missing_critical_skills`
(ats_scorer.py 151-188): of the missing required skills, those that are
role-family critical (role type a substring of the lowered role title)
or among the first three required skills. -/
def missingCriticalSkills (jd : ParsedJobDescription) (gap : GapAnalysis) :
    List Str :=
  if jd.requiredSkills.isEmpty then []
  else
    let roleLower := pyLower jd.role
    let criticalForRole := CRITICAL_SKILLS_BY_ROLE.foldl
      (fun acc p => if containsSubstr p.1 roleLower then acc ++ p.2 else acc) []
    let missingRequired :=
      (gap.missingSkills.filter (fun s => s.importance == S "required")).map
        (fun s => pyLower s.skill)
    let topRequired := (jd.requiredSkills.take 3).map pyLower
    missingRequired.filter (fun s =>
      criticalForRole.contains (pyLower s) || topRequired.contains (pyLower s))

/-- The `skill_details` dictionary produced by
`ATSScorerAgent._calculate_skill_score` (ats_scorer.py 228-234). -/
structure SkillDetails where
  requiredMatched : Nat
  requiredTotal : Nat
  matchRate : ℚ
  matchedSkills : List Str
  missingRequired : List Str
deriving DecidableEq

/-- The piecewise skill-score curve of
`ATSScorerAgent._calculate_skill_score` (ats_scorer.py 216-226), on the
match ratio; `int` truncation of the non-negative branch arguments is
`Int.floor`. -/
def skillCurve (r : ℚ) : Int :=
  if 4/5 ≤ r then 88 + ⌊(r - 4/5) * 60⌋
  else if 3/5 ≤ r then 72 + ⌊(r - 3/5) * 80⌋
  else if 2/5 ≤ r then 55 + ⌊(r - 2/5) * 85⌋
  else if 1/5 ≤ r then 35 + ⌊(r - 1/5) * 100⌋
  else max 15 ⌊r * 175⌋

/-- The final clamp `max(0, min(100, score))` applied to the curve
value in `_calculate_skill_score` (ats_scorer.py 236). -/
def skillScoreOfRatio (r : ℚ) : Int := max 0 (min 100 (skillCurve r))

/-- Model of `ATSScorerAgent._calculate_skill_score` (ats_scorer.py
190-236): neutral 70 when there are no required skills, else the
clamped curve on the distinct-matched-required to total-required
ratio. -/
def calculateSkillScore (gap : GapAnalysis) (jd : ParsedJobDescription) :
    Int × SkillDetails :=
  if jd.requiredSkills.isEmpty then (70, ⟨0, 0, 1, [], []⟩)
  else
    let requiredLower := jd.requiredSkills.map pyLower
    let requiredMatched :=
      ((gap.matchingSkills.map pyLower).filter
        (fun s => requiredLower.contains s)).dedup
    let missingRequired := gap.missingSkills.filter
      (fun s => s.importance == S "required")
    let totalRequired := jd.requiredSkills.length
    let rate : ℚ := (requiredMatched.length : ℚ) / (totalRequired : ℚ)
    (skillScoreOfRatio rate,
     ⟨requiredMatched.length, totalRequired, roundTo3 rate,
      requiredMatched, missingRequired.map (·.skill)⟩)

/-- Model of `ATSScorerAgent._calculate_preferred_bonus` (ats_scorer.py
238-256): +2 per distinct matched preferred skill, capped at +10, and 0
when the requirement lists no preferred skills. -/
def calculatePreferredBonus (gap : GapAnalysis) (jd : ParsedJobDescription) : Int :=
  if jd.preferredSkills.isEmpty then 0
  else
    let preferredLower := jd.preferredSkills.map pyLower
    let matchedCount :=
      (((gap.matchingSkills.map pyLower).dedup).filter
        (fun s => preferredLower.contains s)).length
    min 10 (2 * (matchedCount : Int))

/-- Model of `ATSScorerAgent._calculate_keyword_score` (ats_scorer.py
258-280). -/
def calculateKeywordScore (gap : GapAnalysis) : Int :=
  let total := gap.matchingKeywords.length + gap.missingKeywords.length
  if total = 0 then 50
  else
    let rate : ℚ := (gap.matchingKeywords.length : ℚ) / (total : ℚ)
    let score : Int :=
      if 7/10 ≤ rate then 82 + ⌊(rate - 7/10) * 60⌋
      else if 1/2 ≤ rate then 65 + ⌊(rate - 1/2) * 85⌋
      else if 3/10 ≤ rate then 45 + ⌊(rate - 3/10) * 100⌋
      else if 3/20 ≤ rate then 25 + ⌊(rate - 3/20) * 133⌋
      else max 10 ⌊rate * 167⌋
    max 0 (min 100 score)

/-- Model of `ATSScorerAgent._calculate_formatting_score` (ats_scorer.py
282-326): additive completeness points, capped at 100. -/
def calculateFormattingScore (r : ParsedResume) : Int :=
  let skillsPts : Int :=
    if 5 ≤ r.skills.length then 20
    else if 3 ≤ r.skills.length then 15
    else if !r.skills.isEmpty then 8
    else 0
  let expPts : Int :=
    if 2 ≤ r.experience.length then
      20 + (if 4 * r.experience.length ≤
              (r.experience.map (fun e => e.description.length)).sum then 5 else 0)
    else if !r.experience.isEmpty then 15
    else 0
  let pts := skillsPts + expPts +
    (if truthyOpt r.summary then 10 else 0) +
    (if !r.education.isEmpty then 10 else 0) +
    (if truthyOpt r.email then 5 else 0) +
    (if truthyOpt r.phone then 5 else 0) +
    (if truthyOpt r.linkedin then 10 else 0) +
    (if truthyOpt r.github then 10 else 0) +
    (if !r.certifications.isEmpty then 10 else 0)
  min 100 pts

/-- Model of `ATSScorerAgent._count_relevance_matches` (ats_scorer.py
328-335): how many of the role keywords occur as whole words in the
experience text. -/
def countRelevanceMatches (expText : Str) (kws : List Str) : Nat :=
  (kws.filter (fun kw => skillInTextCI kw expText)).length

/-- The role-keyword set assembled by
`ATSScorerAgent._calculate_experience_score` (ats_scorer.py 346-359):
role-title words longer than two characters, the first five required
skills, and the first five keywords, lower-cased and deduplicated (a
Python `set`). -/
def roleKeywords (jd : ParsedJobDescription) : List Str :=
  ((splitWs (pyLower jd.role)).filter (fun w => 2 < w.length) ++
   (jd.requiredSkills.take 5).map pyLower ++
   (jd.keywords.take 5).map pyLower).dedup

/-- The combined lower-cased text of one experience entry used by
`_calculate_experience_score` (ats_scorer.py 368-371). -/
def experienceText (e : Experience) : Str :=
  pyLower (e.title ++ S " " ++ e.company ++ S " " ++
    List.intercalate (S " ") e.description) ++
  (if !e.skillsUsed.isEmpty then
    S " " ++ List.intercalate (S " ") (e.skillsUsed.map pyLower)
  else [])

/-- Model of `ATSScorerAgent._calculate_experience_score` (ats_scorer.py
337-425): relevance-tier counting, base score by tier counts, seniority
alignment bonus and detail bonus, capped at 100. -/
def calculateExperienceScore (r : ParsedResume) (jd : ParsedJobDescription) : Int :=
  if r.experience.isEmpty then 20
  else
    let kws := roleKeywords jd
    let tally := r.experience.foldl
      (fun (acc : Nat × Nat × Nat × Nat) e =>
        let rm := countRelevanceMatches (experienceText e) kws
        if 3 ≤ rm then (acc.1 + 1, acc.2.1, acc.2.2.1, acc.2.2.2 + e.description.length)
        else if 2 ≤ rm then (acc.1, acc.2.1 + 1, acc.2.2.1, acc.2.2.2 + e.description.length)
        else if 1 ≤ rm then (acc.1, acc.2.1, acc.2.2.1 + 1, acc.2.2.2 + e.description.length / 2)
        else acc)
      (0, 0, 0, 0)
    let high := tally.1
    let med := tally.2.1
    let low := tally.2.2.1
    let totalBullets := tally.2.2.2
    let base : Int :=
      if 2 ≤ high then 80
      else if 1 ≤ high then 70
      else if 2 ≤ med then 65
      else if 1 ≤ med || 2 ≤ low then 55
      else if 1 ≤ low then 45
      else 35
    let expCount := r.experience.length
    let seniorityBonus : Int :=
      match jd.seniority with
      | .entry | .junior => if 1 ≤ expCount then 15 else 0
      | .mid => if 2 ≤ expCount then 15 else if 1 ≤ expCount then 10 else 0
      | .senior => if 3 ≤ expCount then 15 else if 2 ≤ expCount then 8 else 0
      | .lead => if 4 ≤ expCount then 15 else if 3 ≤ expCount then 8 else 0
      | .principal => if 5 ≤ expCount then 15 else if 4 ≤ expCount then 8 else 0
    let detailBonus : Int :=
      if 10 ≤ totalBullets then 5 else if 6 ≤ totalBullets then 3 else 0
    min 100 (base + seniorityBonus + detailBonus)

/-- Model of `ATSScorerAgent._identify_issues` (ats_scorer.py 491-601):
the ordered list of detected issues, each reduced to its category tag
and severity. -/
def identifyIssues (r : ParsedResume) (jd : ParsedJobDescription)
    (gap : GapAnalysis) : List ATSIssue :=
  let missingRequired := gap.missingSkills.filter
    (fun s => s.importance == S "required")
  let topRequired := (jd.requiredSkills.take 3).map pyLower
  let criticalMissing := missingRequired.filter
    (fun s => topRequired.contains (pyLower s.skill))
  (if 2 ≤ criticalMissing.length then [(⟨S "Skills", .critical⟩ : ATSIssue)]
   else if 4 ≤ missingRequired.length then [⟨S "Skills", .high⟩]
   else if 2 ≤ missingRequired.length then [⟨S "Skills", .medium⟩]
   else if !missingRequired.isEmpty then [⟨S "Skills", .low⟩]
   else []) ++
  (if !truthyOpt r.email then [(⟨S "Contact", .high⟩ : ATSIssue)] else []) ++
  (if r.experience.isEmpty && !(jd.seniority = .entry) then
    [(⟨S "Experience", .high⟩ : ATSIssue)] else []) ++
  (if !truthyOpt r.summary then [(⟨S "Formatting", .medium⟩ : ATSIssue)] else []) ++
  (if !r.experience.isEmpty &&
      r.experience.length ≤
        2 * (r.experience.filter (fun e => e.description.length < 2)).length then
    [(⟨S "Experience", .medium⟩ : ATSIssue)] else []) ++
  (if 3 * gap.matchingKeywords.length < 2 * gap.missingKeywords.length then
    [(⟨S "Keywords", .medium⟩ : ATSIssue)] else []) ++
  (if !truthyOpt r.linkedin then [(⟨S "Contact", .low⟩ : ATSIssue)] else []) ++
  (if 3 ≤ gap.missingTools.length then [(⟨S "Tools", .low⟩ : ATSIssue)] else [])

/-- The hard-cap pass of `ATSScorerAgent.score` (ats_scorer.py 96-106):
ceilings of 55 / 65 / 75 for 4+ / 3 / 2 missing critical skills, and no
cap otherwise. -/
def applyCaps (p : Int) (n : Nat) : Int :=
  if 4 ≤ n then min p 55
  else if 3 ≤ n then min p 65
  else if n = 2 then min p 75
  else p

/-- The final clamp of `ATSScorerAgent.score` (ats_scorer.py 109). -/
def clamp100 (p : Int) : Int := max 0 (min 100 p)

/-- Model of `ATSScorerAgent._determine_bucket` (ats_scorer.py 427-489)
as the function of the overall score, the missing-critical-skill count
and the skill match rate that the source reads from its arguments. -/
def determineBucket (score : Int) (missingCount : Nat) (matchRate : ℚ) :
    ATSBucket :=
  if score < 30 then .notAtsFriendly
  else if 4 ≤ missingCount then
    if 35 ≤ score then .weak else .notAtsFriendly
  else if 3 ≤ missingCount then
    if 70 ≤ score then .moderate
    else if 45 ≤ score then .weak
    else .notAtsFriendly
  else if missingCount = 2 then
    if 65 ≤ score then .moderate
    else if 45 ≤ score then .weak
    else .notAtsFriendly
  else if missingCount = 1 then
    if 80 ≤ score then .strong
    else if 55 ≤ score then .moderate
    else if 35 ≤ score then .weak
    else .notAtsFriendly
  else
    if 80 ≤ score ∧ 7/10 ≤ matchRate then .strong
    else if 75 ≤ score ∧ 6/10 ≤ matchRate then .strong
    else if 55 ≤ score then .moderate
    else if 35 ≤ score then .weak
    else .notAtsFriendly

/-- The numeric pipeline of `ATSScorerAgent.score` (ats_scorer.py
62-109): weighted blend of the four component scores (40/20/20/20,
`int` truncation of the non-negative blend modelled by integer
division by 5 of twice the skill score plus the others), preferred
bonus, graduated issue penalty, hard caps, final clamp to [0, 100]. -/
def overallScoreInt (r : ParsedResume) (jd : ParsedJobDescription)
    (gap : GapAnalysis) : Int :=
  let base := (2 * (calculateSkillScore gap jd).1 + calculateKeywordScore gap +
    calculateFormattingScore r + calculateExperienceScore r jd) / 5 +
    calculatePreferredBonus gap jd
  let penalized := base + calculateIssuePenalty (identifyIssues r jd gap)
  clamp100 (applyCaps penalized (missingCriticalSkills jd gap).length)

/-- Model of `ATSScorerAgent.score` (ats_scorer.py 62-129) restricted
to the modelled `ATSScore` fields. -/
def scoreFn (r : ParsedResume) (jd : ParsedJobDescription) (gap : GapAnalysis) :
    ATSScore :=
  { overallScore := overallScoreInt r jd gap
    bucket := determineBucket (overallScoreInt r jd gap)
      (missingCriticalSkills jd gap).length
      (calculateSkillScore gap jd).2.matchRate
    skillMatchScore := (calculateSkillScore gap jd).1
    keywordScore := calculateKeywordScore gap
    formattingScore := calculateFormattingScore r
    experienceAlignmentScore := calculateExperienceScore r jd
    issues := identifyIssues r jd gap
    missingKeywords := gap.missingKeywords.take 10 }

/-- Spec-side weight of a required item, stated as in the spec: an
importance scale critical=1.0, high=0.8, medium=0.5, low=0.2, as true
rationals. -/
def specWeight (m : SkillMatchResult) : ℚ :=
  match m.importance with
  | .critical => 1
  | .high => 8/10
  | .medium => 5/10
  | .low => 2/10

/-- Spec-side confidence of a match result as a true rational in
[0, 1]. -/
def specConfidence (m : SkillMatchResult) : ℚ := (m.confidence : ℚ) / 100

/-- Modelled from the spec wording of the weighted match percentage:
each required item contributes its importance weight, each preferred
item the same weight scaled by 0.3, and the percentage is (sum of
weight times confidence over matched items) divided by (sum of all
weights) times 100.  Written independently of
`calculateWeightedMatch` to compare the code against the spec. -/
def specWeightedPercent (req pref : List SkillMatchResult) : ℚ :=
  ((req.map (fun m => if m.matched then specWeight m * specConfidence m else 0)).sum +
   (pref.map (fun m =>
     if m.matched then specWeight m * (3/10) * specConfidence m else 0)).sum) /
  ((req.map specWeight).sum + (pref.map (fun m => specWeight m * (3/10))).sum) * 100

/-- A resume with every field empty. -/
def emptyResume : ParsedResume :=
  ⟨none, none, none, none, none, none, none, [], [], [], [], [], [], []⟩

/-- The candidate of the spec scenario behind claim C3: declares
exactly the first two required skills and mentions the third only in
free text. -/
def resumeC3 : ParsedResume :=
  { emptyResume with
    skills := [S "alpha", S "beta"]
    rawText := S "worked with gamma in production" }

/-- The requirement of the spec scenario behind claim C3: four required
skills, two preferred ones. -/
def jdC3 : ParsedJobDescription :=
  ⟨S "engineer", none,
   [S "alpha", S "beta", S "gamma", S "delta"],
   [S "epsilon", S "zeta"],
   [], .mid, [], [], [], [], none⟩

/-- A requirement whose required, preferred, tool and keyword lists are
all empty. -/
def jdEmptyLists : ParsedJobDescription :=
  ⟨S "engineer", none, [], [], [], .mid, [], [], [], [], none⟩

/-- A gap-analysis result with every list empty. -/
def gapEmpty : GapAnalysis :=
  ⟨[], [], [], [], [], [], false, false, 0⟩

/-- A preferred-importance missing-skill record for an unmatched skill. -/
def omegaGap : SkillGap :=
  ⟨S "omega", S "preferred", S "medium"⟩

lemma skillCurve_lb_top {r : ℚ} (h : 4/5 ≤ r) : 88 ≤ skillCurve r := by
  unfold skillCurve
  rw [if_pos h]
  have hf : 0 ≤ ⌊(r - 4/5) * 60⌋ := Int.floor_nonneg.mpr (by nlinarith)
  linarith

lemma skillCurve_lb2 {r : ℚ} (h : 3/5 ≤ r) : 72 ≤ skillCurve r := by
  rcases le_or_lt (4/5) r with h1 | h1
  · linarith [skillCurve_lb_top h1]
  · unfold skillCurve
    rw [if_neg (not_le.mpr h1), if_pos h]
    have hf : 0 ≤ ⌊(r - 3/5) * 80⌋ := Int.floor_nonneg.mpr (by nlinarith)
    linarith

lemma skillCurve_lb3 {r : ℚ} (h : 2/5 ≤ r) : 55 ≤ skillCurve r := by
  rcases le_or_lt (3/5) r with h1 | h1
  · linarith [skillCurve_lb2 h1]
  · unfold skillCurve
    rw [if_neg (not_le.mpr (by linarith : r < 4/5)), if_neg (not_le.mpr h1),
      if_pos h]
    have hf : 0 ≤ ⌊(r - 2/5) * 85⌋ := Int.floor_nonneg.mpr (by nlinarith)
    linarith

lemma skillCurve_lb4 {r : ℚ} (h : 1/5 ≤ r) : 35 ≤ skillCurve r := by
  rcases le_or_lt (2/5) r with h1 | h1
  · linarith [skillCurve_lb3 h1]
  · unfold skillCurve
    rw [if_neg (not_le.mpr (by linarith : r < 4/5)),
      if_neg (not_le.mpr (by linarith : r < 3/5)), if_neg (not_le.mpr h1),
      if_pos h]
    have hf : 0 ≤ ⌊(r - 1/5) * 100⌋ := Int.floor_nonneg.mpr (by nlinarith)
    linarith

lemma skillCurve_ub4 {r : ℚ} (h : r < 1/5) : skillCurve r ≤ 34 := by
  unfold skillCurve
  split_ifs with h1 h2 h3 h4
  · exact absurd h1 (by linarith)
  · exact absurd h2 (by linarith)
  · exact absurd h3 (by linarith)
  · exact absurd h4 (by linarith)
  · apply max_le (by norm_num)
    have hf : ⌊r * 175⌋ < 35 := Int.floor_lt.2 (by push_cast; nlinarith)
    omega

lemma skillCurve_ub3 {r : ℚ} (h : r < 2/5) : skillCurve r ≤ 54 := by
  unfold skillCurve
  split_ifs with h1 h2 h3 h4
  · exact absurd h1 (by linarith)
  · exact absurd h2 (by linarith)
  · exact absurd h3 (by linarith)
  · have hf : ⌊(r - 1/5) * 100⌋ < 20 := Int.floor_lt.2 (by push_cast; nlinarith)
    omega
  · apply max_le (by norm_num)
    have hf : ⌊r * 175⌋ < 35 := Int.floor_lt.2 (by push_cast; nlinarith)
    omega

lemma skillCurve_ub2 {r : ℚ} (h : r < 3/5) : skillCurve r ≤ 71 := by
  unfold skillCurve
  split_ifs with h1 h2 h3 h4
  · exact absurd h1 (by linarith)
  · exact absurd h2 (by linarith)
  · have hf : ⌊(r - 2/5) * 85⌋ < 17 := Int.floor_lt.2 (by push_cast; nlinarith)
    omega
  · have hf : ⌊(r - 1/5) * 100⌋ < 20 := Int.floor_lt.2 (by push_cast; nlinarith)
    omega
  · apply max_le (by norm_num)
    have hf : ⌊r * 175⌋ < 35 := Int.floor_lt.2 (by push_cast; nlinarith)
    omega

lemma skillCurve_ub1 {r : ℚ} (h : r < 4/5) : skillCurve r ≤ 87 := by
  unfold skillCurve
  split_ifs with h1 h2 h3 h4
  · exact absurd h1 (by linarith)
  · have hf : ⌊(r - 3/5) * 80⌋ < 16 := Int.floor_lt.2 (by push_cast; nlinarith)
    omega
  · have hf : ⌊(r - 2/5) * 85⌋ < 17 := Int.floor_lt.2 (by push_cast; nlinarith)
    omega
  · have hf : ⌊(r - 1/5) * 100⌋ < 20 := Int.floor_lt.2 (by push_cast; nlinarith)
    omega
  · apply max_le (by norm_num)
    have hf : ⌊r * 175⌋ < 35 := Int.floor_lt.2 (by push_cast; nlinarith)
    omega

lemma skillCurve_mono {r r' : ℚ} (h0 : 0 ≤ r) (h : r ≤ r') :
    skillCurve r ≤ skillCurve r' := by
  rcases le_or_lt (4/5) r with h1 | h1
  · have h1' : (4:ℚ)/5 ≤ r' := le_trans h1 h
    unfold skillCurve
    rw [if_pos h1, if_pos h1']
    have := Int.floor_mono (show (r - 4/5) * 60 ≤ (r' - 4/5) * 60 by nlinarith)
    linarith
  · rcases le_or_lt (4/5) r' with h1' | h1'
    · linarith [skillCurve_ub1 h1, skillCurve_lb_top h1']
    · rcases le_or_lt (3/5) r with h2 | h2
      · have h2' : (3:ℚ)/5 ≤ r' := le_trans h2 h
        unfold skillCurve
        rw [if_neg (not_le.mpr h1), if_neg (not_le.mpr h1'), if_pos h2, if_pos h2']
        have := Int.floor_mono (show (r - 3/5) * 80 ≤ (r' - 3/5) * 80 by nlinarith)
        linarith
      · rcases le_or_lt (3/5) r' with h2' | h2'
        · linarith [skillCurve_ub2 h2, skillCurve_lb2 h2']
        · rcases le_or_lt (2/5) r with h3 | h3
          · have h3' : (2:ℚ)/5 ≤ r' := le_trans h3 h
            unfold skillCurve
            rw [if_neg (not_le.mpr h1), if_neg (not_le.mpr h1'),
              if_neg (not_le.mpr h2), if_neg (not_le.mpr h2'),
              if_pos h3, if_pos h3']
            have := Int.floor_mono
              (show (r - 2/5) * 85 ≤ (r' - 2/5) * 85 by nlinarith)
            linarith
          · rcases le_or_lt (2/5) r' with h3' | h3'
            · linarith [skillCurve_ub3 h3, skillCurve_lb3 h3']
            · rcases le_or_lt (1/5) r with h4 | h4
              · have h4' : (1:ℚ)/5 ≤ r' := le_trans h4 h
                unfold skillCurve
                rw [if_neg (not_le.mpr h1), if_neg (not_le.mpr h1'),
                  if_neg (not_le.mpr h2), if_neg (not_le.mpr h2'),
                  if_neg (not_le.mpr h3), if_neg (not_le.mpr h3'),
                  if_pos h4, if_pos h4']
                have := Int.floor_mono
                  (show (r - 1/5) * 100 ≤ (r' - 1/5) * 100 by nlinarith)
                linarith
              · rcases le_or_lt (1/5) r' with h4' | h4'
                · linarith [skillCurve_ub4 h4, skillCurve_lb4 h4']
                · unfold skillCurve
                  rw [if_neg (not_le.mpr h1), if_neg (not_le.mpr h1'),
                    if_neg (not_le.mpr h2), if_neg (not_le.mpr h2'),
                    if_neg (not_le.mpr h3), if_neg (not_le.mpr h3'),
                    if_neg (not_le.mpr h4), if_neg (not_le.mpr h4')]
                  exact max_le_max (le_refl 15)
                    (Int.floor_mono (by nlinarith))

/-- C1: for every resume, job description and gap analysis, `score`
returns an overall score in [0, 100], and `_determine_bucket` is a
total function of the score, the missing-critical-skill count and the
match rate: every combination of these inputs is classified into one
of the four buckets, with no unclassified case. -/
theorem overall_score_bounded_and_bucket_total
    (r : ParsedResume) (jd : ParsedJobDescription) (gap : GapAnalysis) :
    0 ≤ (scoreFn r jd gap).overallScore ∧
    (scoreFn r jd gap).overallScore ≤ 100 ∧
    (∀ (s : Int) (n : Nat) (mr : ℚ),
      determineBucket s n mr = .strong ∨ determineBucket s n mr = .moderate ∨
      determineBucket s n mr = .weak ∨
      determineBucket s n mr = .notAtsFriendly) ∧
    ((scoreFn r jd gap).bucket = .strong ∨
     (scoreFn r jd gap).bucket = .moderate ∨
     (scoreFn r jd gap).bucket = .weak ∨
     (scoreFn r jd gap).bucket = .notAtsFriendly) := by
  have hbucket : ∀ (s : Int) (n : Nat) (mr : ℚ),
      determineBucket s n mr = .strong ∨ determineBucket s n mr = .moderate ∨
      determineBucket s n mr = .weak ∨
      determineBucket s n mr = .notAtsFriendly := by
    intro s n mr
    unfold determineBucket
    split_ifs <;> tauto
  refine ⟨?_, ?_, hbucket, ?_⟩
  · show 0 ≤ clamp100 _
    exact le_max_left 0 _
  · show clamp100 _ ≤ 100
    exact max_le (by norm_num) (min_le_left 100 _)
  · exact hbucket _ _ _

/-- C2: the issue penalty is not the graduated per-issue-capped scheme
the claim (and the source comments) state.  `min(-8 * count, -20)` on
negative numbers is a floor, not a cap: a single critical issue is
penalised -20 (not -8), and one high-severity issue receives the same
-12 penalty as three high-severity issues, contradicting the claim
that a single issue is penalised strictly less than three. -/
theorem issue_penalty_floor_not_cap :
    calculateIssuePenalty [⟨S "Contact", .high⟩] = -12 ∧
    calculateIssuePenalty
      [⟨S "Contact", .high⟩, ⟨S "Experience", .high⟩, ⟨S "Skills", .high⟩] = -12 ∧
    calculateIssuePenalty [⟨S "Skills", .critical⟩] = -20 ∧
    severityPenalty .critical 1 = -20 ∧
    severityPenalty .critical 3 = -24 ∧
    ¬ severityPenalty .high 1 > severityPenalty .high 3 := by
  decide

/-- C8: the skill-score curve is monotonically non-decreasing in the
match ratio, including across its break points, and therefore
increasing the matched-required count with a fixed total never
decreases the clamped skill score. -/
theorem skill_score_monotone (n m m' : ℕ) (hm : m ≤ m') (hn : m' ≤ n) :
    (∀ r r' : ℚ, 0 ≤ r → r ≤ r' → skillCurve r ≤ skillCurve r') ∧
    skillScoreOfRatio ((m : ℚ) / (n : ℚ)) ≤
      skillScoreOfRatio ((m' : ℚ) / (n : ℚ)) := by
  constructor
  · exact fun r r' h0 h => skillCurve_mono h0 h
  · unfold skillScoreOfRatio
    apply max_le_max (le_refl 0)
    apply min_le_min (le_refl 100)
    apply skillCurve_mono (by positivity)
    rcases Nat.eq_zero_or_pos n with h0 | h0
    · simp [h0]
    · have hc : (0 : ℚ) < (n : ℚ) := by exact_mod_cast h0
      exact (div_le_div_right hc).mpr (by exact_mod_cast hm)

/-- Witness for C8 at total 4, matched 2 and 3. -/
theorem skill_score_monotone_witness :
    2 ≤ 3 ∧ skillScoreOfRatio ((2 : ℚ) / (4 : ℚ)) ≤
      skillScoreOfRatio ((3 : ℚ) / (4 : ℚ)) :=
  ⟨by decide, (skill_score_monotone 4 2 3 (by decide) (by decide)).2⟩

/-- C10: one missing critical skill triggers no numeric cap, unlike two,
three and four or more, which cap at 75, 65 and 55 and only ever lower
the score; with one missing critical skill the bucket is STRONG
whenever the final score is at least 80, while with two or more
missing critical skills STRONG is unreachable. -/
theorem one_missing_critical_uncapped (p s : Int) (mr : ℚ) :
    applyCaps p 1 = p ∧
    applyCaps p 2 = min p 75 ∧
    applyCaps p 3 = min p 65 ∧
    (∀ n : ℕ, 4 ≤ n → applyCaps p n = min p 55) ∧
    (∀ n : ℕ, applyCaps p n ≤ p) ∧
    (80 ≤ s → determineBucket s 1 mr = .strong) ∧
    (∀ n : ℕ, 2 ≤ n → determineBucket s n mr ≠ .strong) := by
  refine ⟨?_, ?_, ?_, ?_, ?_, ?_, ?_⟩
  · simp [applyCaps]
  · simp [applyCaps]
  · simp [applyCaps]
  · intro n hn
    unfold applyCaps
    rw [if_pos hn]
  · intro n
    unfold applyCaps
    split_ifs <;> simp [min_le_left]
  · intro h
    unfold determineBucket
    rw [if_neg (by omega : ¬ s < 30), if_neg (by omega : ¬ (4:ℕ) ≤ 1),
      if_neg (by omega : ¬ (3:ℕ) ≤ 1), if_neg (by omega : ¬ (1:ℕ) = 2),
      if_pos (rfl : (1:ℕ) = 1), if_pos h]
  · intro n hn
    unfold determineBucket
    split_ifs <;> simp_all <;> omega

/-- Witness for C10 at penalised score 90, final score 85, match rate
one half. -/
theorem one_missing_critical_uncapped_witness :
    applyCaps 90 1 = 90 ∧ determineBucket 85 1 (1/2) = .strong :=
  ⟨(one_missing_critical_uncapped 90 85 (1/2)).1,
   (one_missing_critical_uncapped 90 85 (1/2)).2.2.2.2.2.1 (by norm_num)⟩

lemma list_sum_map_div {α : Type} (l : List α) (f : α → ℚ) (k : ℚ) :
    (l.map fun x => f x / k).sum = (l.map f).sum / k := by
  induction l with
  | nil => simp
  | cons x t ih => simp [ih, add_div]

lemma list_sum_natCast {α : Type} (l : List α) (g : α → ℕ) :
    (l.map fun x => ((g x : ℚ))).sum = (((l.map g).sum : ℕ) : ℚ) := by
  induction l with
  | nil => simp
  | cons x t ih => push_cast [List.map_cons, List.sum_cons, ih]; ring

lemma foldl_reqStep_eq (l : List SkillMatchResult) (a b : ℕ) :
    l.foldl reqStep (a, b) =
      (a + (l.map fun m => importanceWeight m.importance).sum,
       b + (l.map fun m =>
         if m.matched then importanceWeight m.importance * m.confidence
         else 0).sum) := by
  induction l generalizing a b with
  | nil => simp
  | cons m t ih =>
    simp only [List.foldl_cons, List.map_cons, List.sum_cons, reqStep, ih,
      Prod.mk.injEq]
    omega

lemma foldl_prefStep_eq (l : List SkillMatchResult) (a b : ℕ) :
    l.foldl prefStep (a, b) =
      (a + (l.map fun m => importanceWeight m.importance * 3 / 10).sum,
       b + (l.map fun m =>
         if m.matched then importanceWeight m.importance * 3 / 10 * m.confidence
         else 0).sum) := by
  induction l generalizing a b with
  | nil => simp
  | cons m t ih =>
    simp only [List.foldl_cons, List.map_cons, List.sum_cons, prefStep, ih,
      Prod.mk.injEq]
    omega

lemma specWeight_eq_cast (m : SkillMatchResult) :
    specWeight m = ((importanceWeight m.importance : ℕ) : ℚ) / 100 := by
  cases h : m.importance <;> simp [specWeight, importanceWeight, h] <;> norm_num

lemma specPrefWeight_eq_cast (m : SkillMatchResult) :
    specWeight m * (3/10) = ((importanceWeight m.importance * 3 / 10 : ℕ) : ℚ) / 100 := by
  cases h : m.importance <;> simp [specWeight, importanceWeight, h] <;> norm_num

lemma specReqNum_eq_cast (m : SkillMatchResult) :
    (if m.matched then specWeight m * specConfidence m else 0) =
      (((if m.matched then importanceWeight m.importance * m.confidence
         else 0 : ℕ)) : ℚ) / 10000 := by
  cases hm : m.matched
  · simp [hm]
  · simp only [hm, if_true, specConfidence]
    rw [specWeight_eq_cast]
    push_cast
    ring

lemma specPrefNum_eq_cast (m : SkillMatchResult) :
    (if m.matched then specWeight m * (3/10) * specConfidence m else 0) =
      (((if m.matched then importanceWeight m.importance * 3 / 10 * m.confidence
         else 0 : ℕ)) : ℚ) / 10000 := by
  cases hm : m.matched
  · simp [hm]
  · simp only [hm, if_true, specConfidence]
    rw [specPrefWeight_eq_cast]
    push_cast
    ring

lemma scaled_percent_eq (n1 n2 d1 d2 : ℕ) (hd : 0 < d1 + d2) :
    (((0 + n1) + n2 : ℕ) : ℚ) / (((0 + d1) + d2 : ℕ) : ℚ) =
      ((n1:ℚ)/10000 + (n2:ℚ)/10000) / ((d1:ℚ)/100 + (d2:ℚ)/100) * 100 := by
  have hd' : (d1:ℚ) + (d2:ℚ) ≠ 0 := by
    have hlt : (0:ℚ) < (d1:ℚ) + (d2:ℚ) := by exact_mod_cast hd
    linarith
  push_cast
  field_simp
  ring

lemma importanceWeight_pos (i : SkillImportance) :
    20 ≤ importanceWeight i := by
  cases i <;> decide

lemma prefWeight_pos (i : SkillImportance) :
    6 ≤ importanceWeight i * 3 / 10 := by
  cases i <;> decide

/-- C4: for every pair of required- and preferred-match lists with at
least one item, the weighted match percentage computed by the code
(`calculateWeightedMatch`, as rounded into the result by `analyze`)
equals the formula stated by the spec: the sum of weight times
confidence over matched items divided by the sum of all weights, times
100, with required weights critical=1.0, high=0.8, medium=0.5, low=0.2
and preferred weights the same scale times 0.3. -/
theorem weighted_match_refines_spec (req pref : List SkillMatchResult)
    (h : req ++ pref ≠ []) :
    calculateWeightedMatch req pref = specWeightedPercent req pref ∧
    roundTo1 (calculateWeightedMatch req pref) =
      roundTo1 (specWeightedPercent req pref) := by
  have heq : calculateWeightedMatch req pref = specWeightedPercent req pref := by
    unfold calculateWeightedMatch
    rw [foldl_reqStep_eq, foldl_prefStep_eq]
    have hden : 0 < (req.map fun m => importanceWeight m.importance).sum +
        (pref.map fun m => importanceWeight m.importance * 3 / 10).sum := by
      rcases req with _ | ⟨m, t⟩
      · rcases pref with _ | ⟨m, t⟩
        · simp at h
        · have := prefWeight_pos m.importance
          simp only [List.map_cons, List.sum_cons]
          omega
      · have := importanceWeight_pos m.importance
        simp only [List.map_cons, List.sum_cons]
        omega
    rw [if_neg (by omega)]
    unfold specWeightedPercent
    have e1 : (req.map fun m =>
        if m.matched then specWeight m * specConfidence m else 0).sum =
        (((req.map fun m =>
          if m.matched then importanceWeight m.importance * m.confidence
          else 0).sum : ℕ) : ℚ) / 10000 := by
      rw [show (req.map fun m =>
          if m.matched then specWeight m * specConfidence m else 0) =
          req.map fun m =>
            (((if m.matched then importanceWeight m.importance * m.confidence
               else 0 : ℕ)) : ℚ) / 10000 from
        List.map_congr_left fun m _ => specReqNum_eq_cast m]
      rw [list_sum_map_div, list_sum_natCast]
    have e2 : (pref.map fun m =>
        if m.matched then specWeight m * (3/10) * specConfidence m else 0).sum =
        (((pref.map fun m =>
          if m.matched then importanceWeight m.importance * 3 / 10 * m.confidence
          else 0).sum : ℕ) : ℚ) / 10000 := by
      rw [show (pref.map fun m =>
          if m.matched then specWeight m * (3/10) * specConfidence m else 0) =
          pref.map fun m =>
            (((if m.matched then importanceWeight m.importance * 3 / 10 * m.confidence
               else 0 : ℕ)) : ℚ) / 10000 from
        List.map_congr_left fun m _ => specPrefNum_eq_cast m]
      rw [list_sum_map_div, list_sum_natCast]
    have e3 : (req.map specWeight).sum =
        (((req.map fun m => importanceWeight m.importance).sum : ℕ) : ℚ) / 100 := by
      rw [show req.map specWeight = req.map fun m =>
          ((importanceWeight m.importance : ℕ) : ℚ) / 100 from
        List.map_congr_left fun m _ => specWeight_eq_cast m]
      rw [list_sum_map_div, list_sum_natCast]
    have e4 : (pref.map fun m => specWeight m * (3/10)).sum =
        (((pref.map fun m => importanceWeight m.importance * 3 / 10).sum : ℕ) : ℚ) /
          100 := by
      rw [show (pref.map fun m => specWeight m * (3/10)) = pref.map fun m =>
          ((importanceWeight m.importance * 3 / 10 : ℕ) : ℚ) / 100 from
        List.map_congr_left fun m _ => specPrefWeight_eq_cast m]
      rw [list_sum_map_div, list_sum_natCast]
    rw [e1, e2, e3, e4]
    dsimp only
    exact scaled_percent_eq _ _ _ _ hden
  exact ⟨heq, by rw [heq]⟩

/-- Witness for C4 on a one-element required list. -/
theorem weighted_match_refines_spec_witness :
    ([(⟨S "python", true, none, 100, .exactMatch, .critical⟩ : SkillMatchResult)] ++
      ([] : List SkillMatchResult) ≠ []) ∧
    calculateWeightedMatch
        [⟨S "python", true, none, 100, .exactMatch, .critical⟩] [] =
      specWeightedPercent
        [⟨S "python", true, none, 100, .exactMatch, .critical⟩] [] :=
  ⟨by decide,
   (weighted_match_refines_spec
     [⟨S "python", true, none, 100, .exactMatch, .critical⟩] [] (by decide)).1⟩

lemma occursAt_lt_length {t s : Str} {i : ℕ} (ht : t ≠ [])
    (h : occursAt t s i = true) : i < s.length := by
  by_contra hge
  push_neg at hge
  rw [occursAt, List.drop_eq_nil_of_le hge] at h
  simp at h
  exact ht h

lemma skillInText_of_wholeWordAt {t s : Str} {i : ℕ} (ht : t ≠ [])
    (h : wholeWordAt t s i = true) : skillInText t s = true := by
  unfold skillInText
  rw [List.any_eq_true]
  refine ⟨i, List.mem_range.mpr ?_, h⟩
  have hocc : occursAt t s i = true := by
    unfold wholeWordAt at h
    simp only [Bool.and_eq_true] at h
    exact h.1.1
  exact Nat.lt_succ_of_lt (occursAt_lt_length ht hocc)

/-- C5 (amended): the free-text strategy of the Gap Analyzer
(`_skill_in_text`, used by `GapAnalysisAgent._match_skill`) reports a
match only when the (case-folded) target occurs as a whole word in the
text: every reported match exhibits an occurrence with a regex word
boundary at both ends, so a target never matches as a proper substring
of a longer word there.  (The corresponding guarantee is false for
`SkillMatcher.match_skill`, whose text tier is a naive substring test;
see the counterexample.) -/
theorem skill_in_text_whole_word_only (t s : Str)
    (h : skillInTextCI t s = true) :
    ∃ i, wholeWordAt (pyLower t) (pyLower s) i = true := by
  unfold skillInTextCI skillInText at h
  rw [List.any_eq_true] at h
  obtain ⟨i, _, hi⟩ := h
  exact ⟨i, hi⟩

/-- Witness for C5 on a whole-word occurrence. -/
theorem skill_in_text_whole_word_only_witness :
    skillInTextCI (S "java") (S "knows Java well") = true ∧
    ∃ i, wholeWordAt (pyLower (S "java")) (pyLower (S "knows Java well")) i = true :=
  ⟨by decide, skill_in_text_whole_word_only _ _ (by decide)⟩

/-- C5 counterexample: `SkillMatcher.match_skill` reports a free-text
match for a 4-letter language name inside a longer term that contains
it as a prefix (its text tier is Python `in`, a naive substring test),
even though the target has no whole-word occurrence in the text — the
word-boundary matcher of the Gap Analyzer correctly rejects it. -/
theorem matcher_text_tier_substring_counterexample :
    (matcherMatchSkill (S "java") [] (S "javascript developer")).1 = true ∧
    (matcherMatchSkill (S "java") [] (S "javascript developer")).2.1 = 85 ∧
    skillInTextCI (S "java") (S "javascript developer") = false ∧
    skillInText (S "java") (pyLower (S "javascript developer")) = false := by
  decide

lemma lowerCode_idem (c : ℕ) : lowerCode (lowerCode c) = lowerCode c := by
  unfold lowerCode
  split_ifs <;> omega

lemma pyLower_idem (s : Str) : pyLower (pyLower s) = pyLower s := by
  unfold pyLower
  rw [List.map_map]
  exact List.map_congr_left fun c _ => lowerCode_idem c

lemma dropWhile_head_false {p : ℕ → Bool} {l : Str} {a : ℕ} {t : Str}
    (h : l.dropWhile p = a :: t) : p a = false := by
  induction l with
  | nil => simp [List.dropWhile] at h
  | cons x l ih =>
    rw [List.dropWhile_cons] at h
    by_cases hx : p x
    · rw [if_pos hx] at h
      exact ih h
    · rw [if_neg hx] at h
      injection h with h1 _
      subst h1
      simpa using hx

lemma dropWhile_dropWhile (p : ℕ → Bool) (l : Str) :
    (l.dropWhile p).dropWhile p = l.dropWhile p := by
  cases h : l.dropWhile p with
  | nil => simp
  | cons a t =>
    rw [List.dropWhile_cons, dropWhile_head_false h]
    simp

lemma dropWhile_suffix (p : ℕ → Bool) (l : Str) :
    ∃ t, t ++ l.dropWhile p = l := by
  induction l with
  | nil => exact ⟨[], rfl⟩
  | cons a l ih =>
    rw [List.dropWhile_cons]
    by_cases ha : p a
    · rw [if_pos ha]
      obtain ⟨t, ht⟩ := ih
      exact ⟨a :: t, by simp [ht]⟩
    · rw [if_neg ha]
      exact ⟨[], rfl⟩

lemma mem_dropWhile (p : ℕ → Bool) {l : Str} {a : ℕ}
    (h : a ∈ l.dropWhile p) : a ∈ l := by
  obtain ⟨t, ht⟩ := dropWhile_suffix p l
  rw [← ht]
  exact List.mem_append_right t h

lemma mem_pyStrip {l : Str} {a : ℕ} (h : a ∈ pyStrip l) : a ∈ l := by
  unfold pyStrip at h
  rw [List.mem_reverse] at h
  have h2 := mem_dropWhile _ h
  rw [List.mem_reverse] at h2
  exact mem_dropWhile _ h2

lemma pyLower_pyStrip_pyLower (s : Str) :
    pyLower (pyStrip (pyLower s)) = pyStrip (pyLower s) := by
  have hfix : ∀ c ∈ pyStrip (pyLower s), lowerCode c = c := by
    intro c hc
    have hc' : c ∈ pyLower s := mem_pyStrip hc
    unfold pyLower at hc'
    rw [List.mem_map] at hc'
    obtain ⟨d, _, rfl⟩ := hc'
    exact lowerCode_idem d
  show List.map lowerCode (pyStrip (pyLower s)) = pyStrip (pyLower s)
  conv_rhs => rw [← List.map_id (pyStrip (pyLower s))]
  exact List.map_congr_left fun c hc => hfix c hc

lemma pyStrip_idem (l : Str) : pyStrip (pyStrip l) = pyStrip l := by
  have h1 : ((((l.dropWhile isSpaceCode).reverse.dropWhile
      isSpaceCode).reverse).dropWhile isSpaceCode) =
      ((l.dropWhile isSpaceCode).reverse.dropWhile isSpaceCode).reverse := by
    cases hwr : ((l.dropWhile isSpaceCode).reverse.dropWhile
        isSpaceCode).reverse with
    | nil => simp
    | cons a t =>
      obtain ⟨t0, ht0⟩ :=
        dropWhile_suffix isSpaceCode (l.dropWhile isSpaceCode).reverse
      have hpref : ((l.dropWhile isSpaceCode).reverse.dropWhile
          isSpaceCode).reverse ++ t0.reverse = l.dropWhile isSpaceCode := by
        have hr := congrArg List.reverse ht0
        simpa [List.reverse_append] using hr
      have hu2 : l.dropWhile isSpaceCode = a :: (t ++ t0.reverse) := by
        rw [← hpref, hwr]
        simp
      have ha : isSpaceCode a = false := dropWhile_head_false hu2
      rw [List.dropWhile_cons, ha]
      simp
  unfold pyStrip
  rw [h1, List.reverse_reverse, dropWhile_dropWhile]

lemma pyClean_idem (s : Str) : pyClean (pyClean s) = pyClean s := by
  show pyStrip (pyLower (pyStrip (pyLower s))) = pyStrip (pyLower s)
  rw [pyLower_pyStrip_pyLower, pyStrip_idem]

lemma lookupLast_aux {k : Str} {v : Str} (m : List (Str × Str))
    (acc : Option Str)
    (h : m.foldl (fun acc p => if p.1 == k then some p.2 else acc) acc = some v) :
    (k, v) ∈ m ∨ acc = some v := by
  induction m generalizing acc with
  | nil => exact Or.inr h
  | cons p t ih =>
    rw [List.foldl_cons] at h
    rcases ih _ h with hm | hacc
    · exact Or.inl (List.mem_cons_of_mem _ hm)
    · by_cases hp : p.1 == k
      · rw [if_pos hp] at hacc
        left
        have hpv : p = (k, v) := by
          have h1 : p.1 = k := eq_of_beq hp
          have h2 : p.2 = v := Option.some.inj hacc
          cases p
          simp_all
        rw [← hpv]
        exact List.mem_cons_self _ _
      · rw [if_neg hp] at hacc
        exact Or.inr hacc

lemma lookupLast_mem {m : List (Str × Str)} {k v : Str}
    (h : lookupLast m k = some v) : (k, v) ∈ m := by
  unfold lookupLast at h
  rcases lookupLast_aux m none h with hm | hacc
  · exact hm
  · simp at hacc

lemma aliasToSkill_canonical :
    aliasToSkill.all
      (fun p => lookupLast aliasToSkill (pyClean p.2) == some p.2) = true := by
  decide

/-- C6 (amended): `SkillOntology.normalize` is an idempotent function —
for every input string, normalising twice equals normalising once, and
resolving a canonical form (a key of the ontology) returns that same
form.  (The corresponding statements are false for
`GapAnalysisAgent._normalize_skill`; see the counterexample.) -/
theorem ontology_normalize_idempotent (s : Str) :
    ontologyNormalize (ontologyNormalize s) = ontologyNormalize s ∧
    ONTOLOGY.all (fun e => ontologyNormalize e.name == e.name) = true := by
  refine ⟨?_, by decide⟩
  unfold ontologyNormalize dictGet
  cases h : lookupLast aliasToSkill (pyClean s) with
  | none =>
    simp only [h, Option.getD_none]
    rw [pyClean_idem, h]
    simp
  | some v =>
    simp only [h, Option.getD_some]
    have hmem : (pyClean s, v) ∈ aliasToSkill := lookupLast_mem h
    have hall := aliasToSkill_canonical
    rw [List.all_eq_true] at hall
    have hv := hall _ hmem
    have heq : lookupLast aliasToSkill (pyClean v) = some v := eq_of_beq hv
    rw [heq]
    simp

/-- C6 counterexample: `GapAnalysisAgent._normalize_skill` is not
idempotent and does not fix canonical keys of its own table: the alias
`my-sql` resolves to `mysql`, but resolving `mysql` again yields
`mariadb` (a later table entry overwrote the `mysql` self-mapping),
and the canonical key `postgresql` resolves to `pg`. -/
theorem normalize_skill_not_idempotent :
    normalizeSkill (S "my-sql") = S "mysql" ∧
    normalizeSkill (S "mysql") = S "mariadb" ∧
    normalizeSkill (normalizeSkill (S "my-sql")) ≠ normalizeSkill (S "my-sql") ∧
    normalizeSkill (S "postgresql") = S "pg" := by
  decide

lemma roundHalfEven_intCast (n : ℤ) : roundHalfEven (n : ℚ) = n := by
  unfold roundHalfEven
  rw [Int.floor_intCast]
  norm_num

lemma roundTo1_intCast (n : ℤ) : roundTo1 (n : ℚ) = (n : ℚ) := by
  unfold roundTo1
  rw [show ((n : ℚ) * 10) = (((n * 10 : ℤ)) : ℚ) by push_cast; ring,
    roundHalfEven_intCast]
  push_cast
  ring

lemma roundTo1_seventy : roundTo1 (70 : ℚ) = 70 := by
  have h := roundTo1_intCast 70
  norm_num at h
  exact h

lemma analyze_no_weighted_items (r : ParsedResume) (jd : ParsedJobDescription)
    (h1 : jd.requiredSkills = []) (h2 : jd.preferredSkills = [])
    (h3 : jd.tools = []) (h4 : jd.keywords = []) :
    (analyze r jd).missingSkills = [] ∧
    (analyze r jd).overallMatchPercentage = 70 := by
  constructor
  · simp [analyze, h1, h2, h3, h4]
  · have h : (analyze r jd).overallMatchPercentage = roundTo1 70 := by
      simp [analyze, h1, h2, h3, h4, calculateWeightedMatch]
    rw [h, roundTo1_seventy]

/-- C7 (amended): for every candidate profile and a requirement whose
required, preferred, tool and keyword lists are all empty, `analyze`
returns (totally, with no division by zero) an empty missing-skills
list and the neutral default overall match percentage 70.0 — not the
100% conceptual match the claim states. -/
theorem analyze_empty_requirement_neutral (r : ParsedResume)
    (jd : ParsedJobDescription)
    (h1 : jd.requiredSkills = []) (h2 : jd.preferredSkills = [])
    (h3 : jd.tools = []) (h4 : jd.keywords = []) :
    (analyze r jd).missingSkills = [] ∧
    (analyze r jd).overallMatchPercentage = 70 :=
  analyze_no_weighted_items r jd h1 h2 h3 h4

/-- Witness for C7 on the concrete empty requirement. -/
theorem analyze_empty_requirement_neutral_witness :
    jdEmptyLists.requiredSkills = [] ∧
    (analyze emptyResume jdEmptyLists).missingSkills = [] ∧
    (analyze emptyResume jdEmptyLists).overallMatchPercentage = 70 :=
  ⟨rfl,
   (analyze_empty_requirement_neutral emptyResume jdEmptyLists rfl rfl rfl rfl).1,
   (analyze_empty_requirement_neutral emptyResume jdEmptyLists rfl rfl rfl rfl).2⟩

/-- C7 counterexample: on an all-empty requirement the analyzer returns
the neutral default 70.0, not a 100% conceptual match as claimed. -/
theorem analyze_empty_requirement_not_hundred :
    (analyze emptyResume jdEmptyLists).overallMatchPercentage = 70 ∧
    (analyze emptyResume jdEmptyLists).overallMatchPercentage ≠ 100 := by
  have h := analyze_no_weighted_items emptyResume jdEmptyLists rfl rfl rfl rfl
  refine ⟨h.2, ?_⟩
  rw [h.2]
  norm_num

lemma c3_skill_score :
    (calculateSkillScore (analyze resumeC3 jdC3) jdC3).1 = 84 := by
  unfold calculateSkillScore
  rw [if_neg (by decide : ¬ jdC3.requiredSkills.isEmpty = true)]
  dsimp only
  rw [show (((analyze resumeC3 jdC3).matchingSkills.map pyLower).filter
      (fun s => (jdC3.requiredSkills.map pyLower).contains s)).dedup.length = 3
    from by decide]
  rw [show jdC3.requiredSkills.length = 4 from by decide]
  unfold skillScoreOfRatio skillCurve
  rw [if_neg (by norm_num : ¬ (4/5 : ℚ) ≤ ((3 : ℕ) : ℚ) / ((4 : ℕ) : ℚ)),
    if_pos (by norm_num : (3/5 : ℚ) ≤ ((3 : ℕ) : ℚ) / ((4 : ℕ) : ℚ))]
  rw [show (((3 : ℕ) : ℚ) / ((4 : ℕ) : ℚ) - 3/5) * 80 = ((12 : ℤ) : ℚ) by
    push_cast; norm_num]
  rw [Int.floor_intCast]
  norm_num

/-- C3 (amended): in the scenario with required skills A, B, C, D and
preferred skills E, F, a candidate who declares exactly A and B and
mentions C only in free text gets A and B matched by the exact
strategy and C by the free-text strategy at confidence 0.80, the only
missing required skill is D (match ratio 3/4 = 75%), and the resulting
skill match score is 84, which lies in the 72-88 band of the curve for
ratios in [0.6, 0.8) — not in the 55-75 band the claim states. -/
theorem c3_scenario_matches_and_score :
    (matchSkill (S "alpha") resumeC3.skills
      (getFullResumeText resumeC3)).matchStrategy = .exactMatch ∧
    (matchSkill (S "beta") resumeC3.skills
      (getFullResumeText resumeC3)).matchStrategy = .exactMatch ∧
    (matchSkill (S "gamma") resumeC3.skills
      (getFullResumeText resumeC3)).matchStrategy = .textAppearance ∧
    (matchSkill (S "gamma") resumeC3.skills
      (getFullResumeText resumeC3)).confidence = 80 ∧
    (matchSkill (S "delta") resumeC3.skills
      (getFullResumeText resumeC3)).matched = false ∧
    ((analyze resumeC3 jdC3).missingSkills.filter
      (fun g => g.importance == S "required")).map (fun g => g.skill) =
      [S "delta"] ∧
    (calculateSkillScore (analyze resumeC3 jdC3) jdC3).2.requiredMatched = 3 ∧
    (calculateSkillScore (analyze resumeC3 jdC3) jdC3).2.requiredTotal = 4 ∧
    (calculateSkillScore (analyze resumeC3 jdC3) jdC3).1 = 84 ∧
    (72 : ℤ) ≤ 84 ∧ (84 : ℤ) ≤ 88 := by
  refine ⟨by decide, by decide, by decide, by decide, by decide, by decide,
    by decide, by decide, c3_skill_score, by decide, by decide⟩

/-- C3 counterexample: in the claimed scenario the skill match score is
84, which does not lie in the 55-75 band. -/
theorem c3_score_not_in_55_75_band :
    (calculateSkillScore (analyze resumeC3 jdC3) jdC3).1 = 84 ∧
    ¬ (55 ≤ (calculateSkillScore (analyze resumeC3 jdC3) jdC3).1 ∧
       (calculateSkillScore (analyze resumeC3 jdC3) jdC3).1 ≤ 75) := by
  refine ⟨c3_skill_score, ?_⟩
  rw [c3_skill_score]
  norm_num

lemma filter_required_append (missing extra : List SkillGap)
    (himp : ∀ g ∈ extra, g.importance = S "preferred") :
    (missing ++ extra).filter (fun s => s.importance == S "required") =
      missing.filter (fun s => s.importance == S "required") := by
  have hnil : extra.filter (fun s => s.importance == S "required") = [] :=
    List.filter_eq_nil_iff.mpr (fun g hg => by rw [himp g hg]; decide)
  rw [List.filter_append, hnil, List.append_nil]

lemma contains_append_str (l₁ l₂ : List Str) (x : Str) :
    (l₁ ++ l₂).contains x = (l₁.contains x || l₂.contains x) := by
  induction l₁ with
  | nil => simp
  | cons a t ih => simp [List.contains_cons, ih, Bool.or_assoc]

lemma contains_extra_false (matching : List Str) (es : List Str)
    (hdisj : ∀ p ∈ es, pyLower p ∉ matching.map pyLower) :
    ∀ x ∈ (matching.map pyLower).dedup, (es.map pyLower).contains x = false := by
  intro x hx
  rw [Bool.eq_false_iff]
  intro hcon
  have hxm : x ∈ es.map pyLower := by
    rw [List.contains_iff_exists_mem_beq] at hcon
    obtain ⟨y, hy, hbeq⟩ := hcon
    rwa [show x = y from eq_of_beq hbeq]
  obtain ⟨p, hp, hpx⟩ := List.mem_map.mp hxm
  exact hdisj p hp (by rw [hpx]; exact List.mem_dedup.mp hx)

lemma preferred_bonus_bounds (gap : GapAnalysis) (jd : ParsedJobDescription) :
    0 ≤ calculatePreferredBonus gap jd ∧ calculatePreferredBonus gap jd ≤ 10 := by
  unfold calculatePreferredBonus
  split_ifs
  · norm_num
  · constructor
    · apply le_min (by norm_num)
      positivity
    · exact min_le_left _ _

lemma preferred_bonus_append (gap : GapAnalysis) (jd : ParsedJobDescription)
    (es : List Str)
    (hdisj : ∀ p ∈ es, pyLower p ∉ gap.matchingSkills.map pyLower) :
    calculatePreferredBonus gap
      { jd with preferredSkills := jd.preferredSkills ++ es } =
      calculatePreferredBonus gap jd := by
  unfold calculatePreferredBonus
  dsimp only
  have hfil : ((gap.matchingSkills.map pyLower).dedup).filter
      (fun s => ((jd.preferredSkills ++ es).map pyLower).contains s) =
      ((gap.matchingSkills.map pyLower).dedup).filter
        (fun s => (jd.preferredSkills.map pyLower).contains s) := by
    apply List.filter_congr
    intro x hx
    rw [List.map_append, contains_append_str,
      contains_extra_false gap.matchingSkills es hdisj x hx, Bool.or_false]
  by_cases hp : jd.preferredSkills.isEmpty
  · have hpe : jd.preferredSkills = [] := by
      cases hpl : jd.preferredSkills
      · rfl
      · rw [hpl] at hp
        simp at hp
    rw [if_pos hp, hpe, List.nil_append]
    cases hes : es with
    | nil => simp
    | cons e et =>
      rw [if_neg (by simp)]
      have h0 : (((gap.matchingSkills.map pyLower).dedup).filter
          (fun s => ((e :: et).map pyLower).contains s)).length = 0 := by
        rw [List.length_eq_zero, List.filter_eq_nil_iff]
        intro x hx
        rw [Bool.not_eq_true]
        rw [← hes]
        exact contains_extra_false gap.matchingSkills es hdisj x hx
      rw [h0]
      norm_num
  · have hpne : ¬ (jd.preferredSkills ++ es).isEmpty = true := by
      intro hc
      cases hpl : jd.preferredSkills
      · rw [hpl] at hp
        simp at hp
      · rw [hpl] at hc
        simp at hc
    rw [if_neg hpne, if_neg hp, hfil]

/-- C9: the preferred-skill bonus is always between 0 and +10, and
adding unmatched preferred skills to a requirement (with the gap
analysis extended by the corresponding preferred missing-skill
records) never lowers the overall score relative to the otherwise
identical requirement without them. -/
theorem preferred_skills_never_lower_score (r : ParsedResume)
    (jd : ParsedJobDescription) (gap : GapAnalysis) (extra : List SkillGap)
    (himp : ∀ g ∈ extra, g.importance = S "preferred")
    (hdisj : ∀ g ∈ extra, pyLower g.skill ∉ gap.matchingSkills.map pyLower) :
    (0 ≤ calculatePreferredBonus gap jd ∧ calculatePreferredBonus gap jd ≤ 10) ∧
    (scoreFn r jd gap).overallScore ≤
      (scoreFn r
        { jd with preferredSkills :=
            jd.preferredSkills ++ extra.map (fun g => g.skill) }
        { gap with missingSkills := gap.missingSkills ++ extra }).overallScore := by
  refine ⟨preferred_bonus_bounds gap jd, le_of_eq ?_⟩
  show overallScoreInt r jd gap = overallScoreInt r _ _
  have hfilter := filter_required_append gap.missingSkills extra himp
  have hskill : calculateSkillScore
      { gap with missingSkills := gap.missingSkills ++ extra }
      { jd with preferredSkills :=
          jd.preferredSkills ++ extra.map (fun g => g.skill) } =
      calculateSkillScore gap jd := by
    unfold calculateSkillScore
    dsimp only
    rw [hfilter]
  have hissues : identifyIssues r
      { jd with preferredSkills :=
          jd.preferredSkills ++ extra.map (fun g => g.skill) }
      { gap with missingSkills := gap.missingSkills ++ extra } =
      identifyIssues r jd gap := by
    unfold identifyIssues
    dsimp only
    rw [hfilter]
  have hcrit : missingCriticalSkills
      { jd with preferredSkills :=
          jd.preferredSkills ++ extra.map (fun g => g.skill) }
      { gap with missingSkills := gap.missingSkills ++ extra } =
      missingCriticalSkills jd gap := by
    unfold missingCriticalSkills
    dsimp only
    rw [hfilter]
  have hdisj' : ∀ p ∈ extra.map (fun g => g.skill),
      pyLower p ∉ gap.matchingSkills.map pyLower := by
    intro p hp
    obtain ⟨g, hg, rfl⟩ := List.mem_map.mp hp
    exact hdisj g hg
  have hbonus : calculatePreferredBonus
      { gap with missingSkills := gap.missingSkills ++ extra }
      { jd with preferredSkills :=
          jd.preferredSkills ++ extra.map (fun g => g.skill) } =
      calculatePreferredBonus gap jd := by
    have hg : calculatePreferredBonus
        { gap with missingSkills := gap.missingSkills ++ extra }
        { jd with preferredSkills :=
            jd.preferredSkills ++ extra.map (fun g => g.skill) } =
        calculatePreferredBonus gap
          { jd with preferredSkills :=
              jd.preferredSkills ++ extra.map (fun g => g.skill) } := rfl
    rw [hg]
    exact preferred_bonus_append gap jd (extra.map (fun g => g.skill)) hdisj'
  have hkw : calculateKeywordScore
      { gap with missingSkills := gap.missingSkills ++ extra } =
      calculateKeywordScore gap := rfl
  have hexp : calculateExperienceScore r
      { jd with preferredSkills :=
          jd.preferredSkills ++ extra.map (fun g => g.skill) } =
      calculateExperienceScore r jd := rfl
  unfold overallScoreInt
  rw [hskill, hissues, hcrit, hbonus, hkw, hexp]

/-- Witness for C9 with one extra unmatched preferred skill. -/
theorem preferred_skills_never_lower_score_witness :
    (0 ≤ calculatePreferredBonus gapEmpty jdEmptyLists ∧
      calculatePreferredBonus gapEmpty jdEmptyLists ≤ 10) ∧
    (scoreFn emptyResume jdEmptyLists gapEmpty).overallScore ≤
      (scoreFn emptyResume
        { jdEmptyLists with preferredSkills :=
            jdEmptyLists.preferredSkills ++ [omegaGap].map (fun g => g.skill) }
        { gapEmpty with missingSkills :=
            gapEmpty.missingSkills ++ [omegaGap] }).overallScore :=
  preferred_skills_never_lower_score emptyResume jdEmptyLists gapEmpty
    [omegaGap] (by decide) (by decide)

end ResumeMatch
